import Mathlib

/-!
Verification of the simulation-core of a PyTorch MeshGraphNets port
(`normalization.py`, `cloth_model.py`, `deform_model.py`).

Tensors of floating-point numbers are embedded as lists of rationals
(`List ℚ` for vectors, `List (List ℚ)` for 2-D batches, row major), with
exact rational arithmetic standing in for IEEE floats.  `torch.sqrt` is
embedded as `Rat.sqrt`; none of the proved statements depends on the
value of a square root, only on the `max`-with-epsilon floor applied on
top of it.  Stateful `torch` modules are embedded in state-passing
style: a method that mutates `self` returns the updated state.
-/

/-- Column-wise sum of a 2-D batch: `torch.sum(batched_data, dim=0)`.
On a rectangular batch this is the vector of per-column sums. -/
def colSum : List (List ℚ) → List ℚ
  | [] => []
  | [r] => r
  | r :: rs => List.zipWith (· + ·) r (colSum rs)

/-- Column-wise maximum of a 2-D batch (the per-segment reduction of
`torch_scatter.scatter_max` on one segment). -/
def colMax : List (List ℚ) → List ℚ
  | [] => []
  | [r] => r
  | r :: rs => List.zipWith max r (colMax rs)

/-- Column-wise minimum of a 2-D batch (the per-segment reduction of
`torch_scatter.scatter_min` on one segment). -/
def colMin : List (List ℚ) → List ℚ
  | [] => []
  | [r] => r
  | r :: rs => List.zipWith min r (colMin rs)

/-- Column-wise mean of a 2-D batch (the per-segment reduction of
`torch_scatter.scatter_mean` on one segment); an empty segment yields
its `colSum`, i.e. the zero-row fill of `torch_scatter`. -/
def colMean (rs : List (List ℚ)) : List ℚ :=
  (colSum rs).map (fun s => s / (rs.length : ℚ))

/-- State of `normalization.Normalizer`: the constructor arguments
`size`, `max_accumulations`, `std_epsilon` and the four accumulators
`_acc_count`, `_num_accumulations` (float tensors of one element,
embedded as single rationals), `_acc_sum`, `_acc_sum_squared` (float
tensors of `size` elements). -/
structure Normalizer where
  size : ℕ
  max_accumulations : ℚ
  std_epsilon : ℚ
  acc_count : ℚ
  num_accumulations : ℚ
  acc_sum : List ℚ
  acc_sum_squared : List ℚ
  deriving DecidableEq, Repr

/-- `Normalizer.__init__(size, max_accumulations=10**6, std_epsilon=1e-8)`:
all four accumulators start at zero. -/
def Normalizer.init (size : ℕ) : Normalizer :=
  { size := size
    max_accumulations := 10 ^ 6
    std_epsilon := 1 / 10 ^ 8
    acc_count := 0
    num_accumulations := 0
    acc_sum := List.replicate size 0
    acc_sum_squared := List.replicate size 0 }

/-- `Normalizer._accumulate(batched_data)`.  The source computes
`count = len(batched_data.size().tolist())`, i.e. the number of tensor
DIMENSIONS of the batch — `2` for every 2-D batch — not the number of
rows (the commented-out TensorFlow original used
`tf.shape(batched_data)[0]`, the row count).  Batches here are 2-D, so
`count = 2`.  The `Tensor.add` calls are embedded as the in-place
accumulation the surrounding code intends (in stock PyTorch,
`Tensor.add` is not in-place; the out-of-place result is discarded). -/
def Normalizer._accumulate (n : Normalizer) (batched_data : List (List ℚ)) : Normalizer :=
  let count : ℚ := 2
  let data_sum := colSum batched_data
  let squared_data_sum := colSum (batched_data.map (fun r => r.map (fun v => v ^ 2)))
  { n with
    acc_sum := List.zipWith (· + ·) n.acc_sum data_sum
    acc_sum_squared := List.zipWith (· + ·) n.acc_sum_squared squared_data_sum
    acc_count := n.acc_count + count
    num_accumulations := n.num_accumulations + 1 }

/-- `Normalizer._mean()`: `acc_sum / max(acc_count, 1)` per feature. -/
def Normalizer.mean (n : Normalizer) : List ℚ :=
  n.acc_sum.map (fun s => s / max n.acc_count 1)

/-- `Normalizer._std_with_epsilon()`:
`max(sqrt(acc_sum_squared / max(acc_count,1) - mean^2), std_epsilon)`
per feature (`torch.sqrt` embedded as `Rat.sqrt`). -/
def Normalizer.std_with_epsilon (n : Normalizer) : List ℚ :=
  (n.acc_sum_squared.zip n.mean).map
    (fun qm => max (Rat.sqrt (qm.1 / max n.acc_count 1 - qm.2 ^ 2)) n.std_epsilon)

/-- `Normalizer.__call__(batched_data, accumulate=True)`: when
`accumulate` is set and `_num_accumulations < _max_accumulations` the
statistics are accumulated first; the batch is then normalized row-wise
as `(batched_data - mean) / std_with_epsilon` against the (possibly
updated) statistics.  Returns the normalized batch and the updated
normalizer state. -/
def Normalizer.call (n : Normalizer) (batched_data : List (List ℚ)) (accumulate : Bool) :
    List (List ℚ) × Normalizer :=
  let n' := if accumulate = true ∧ n.num_accumulations < n.max_accumulations then
    n._accumulate batched_data else n
  (batched_data.map
    (fun row => List.zipWith (fun v ms => (v - ms.1) / ms.2) row
      (n'.mean.zip n'.std_with_epsilon)), n')

/-- `Normalizer.inverse(normalized_batch_data)`:
`normalized_batch_data * std_with_epsilon + mean` row-wise. -/
def Normalizer.inverse (n : Normalizer) (normalized_batch_data : List (List ℚ)) :
    List (List ℚ) :=
  normalized_batch_data.map
    (fun row => List.zipWith (fun v ms => v * ms.2 + ms.1) row
      (n.mean.zip n.std_with_epsilon))

/-- Elementwise scalar multiple of a 2-D tensor (`c * tensor`). -/
def matScale (c : ℚ) (a : List (List ℚ)) : List (List ℚ) :=
  a.map (fun r => r.map (fun v => c * v))

/-- Elementwise sum of two 2-D tensors of equal shape (`a + b`). -/
def matAdd (a b : List (List ℚ)) : List (List ℚ) :=
  List.zipWith (List.zipWith (· + ·)) a b

/-- Elementwise difference of two 2-D tensors of equal shape (`a - b`). -/
def matSub (a b : List (List ℚ)) : List (List ℚ) :=
  List.zipWith (List.zipWith (· - ·)) a b

/-- `cloth_model.Model._update(inputs, per_node_network_output)`:
`acceleration = output_normalizer.inverse(output)`, then
`position = 2 * cur_position + acceleration - prev_position`
with `cur_position = inputs['world_pos']` and
`prev_position = inputs['prev|world_pos']`. -/
def cloth_update (output_normalizer : Normalizer)
    (world_pos prev_world_pos per_node_network_output : List (List ℚ)) :
    List (List ℚ) :=
  let acceleration := output_normalizer.inverse per_node_network_output
  matSub (matAdd (matScale 2 world_pos) acceleration) prev_world_pos

/-- `deform_model.Model._update(inputs, per_node_network_output)`:
`velocity = output_normalizer.inverse(output)`, then
`position = cur_position + velocity`; returns
`(position, cur_position, velocity)`. -/
def deform_update (output_normalizer : Normalizer)
    (world_pos per_node_network_output : List (List ℚ)) :
    List (List ℚ) × List (List ℚ) × List (List ℚ) :=
  let velocity := output_normalizer.inverse per_node_network_output
  (matAdd world_pos velocity, world_pos, velocity)

/-- Modelled from the spec: `common.py` is not among the sources; the
spec describes `NodeType` as an enumerated tag per mesh node
(NORMAL, OBSTACLE, HANDLE, ...).  Only the integer code of OBSTACLE is
needed here, as a constant distinct from HANDLE. -/
def NodeType.OBSTACLE : ℕ := 1

/-- Modelled from the spec: the integer code of the HANDLE node type
(see `NodeType.OBSTACLE`). -/
def NodeType.HANDLE : ℕ := 3

/-- Squared Euclidean norm of a vector. -/
def sqNorm (v : List ℚ) : ℚ := (v.map (fun x => x ^ 2)).sum

/-- Squared Euclidean distance between two points.  `torch.cdist(w, w,
p=2)` computes the Euclidean distance; over ℚ we carry its square, and
the threshold test `dist < radius` of the source is carried as
`sqDist < radius ^ 2`, which is equivalent since both sides of the
source's comparison are nonnegative. -/
def sqDist (a b : List ℚ) : ℚ := sqNorm (List.zipWith (· - ·) a b)

/-- The fixed proximity threshold of `deform_model.Model._build_graph`:
`radius = 0.006`. -/
def radius : ℚ := 6 / 1000

/-- `torch.where(world_distance_matrix < radius, 1., 0.)`: entry `(s, r)`
of the initial world connection matrix. -/
def world_connection_step1 (world_pos : List (List ℚ)) (s r : ℕ) : ℚ :=
  if sqDist (world_pos.getD s []) (world_pos.getD r []) < radius ^ 2 then 1 else 0

/-- `world_connection_matrix.fill_diagonal_(0.)`: remove self connection. -/
def world_connection_step2 (world_pos : List (List ℚ)) (s r : ℕ) : ℚ :=
  if s = r then 0 else world_connection_step1 world_pos s r

/-- `world_connection_matrix[senders, receivers] = 0`: remove node pairs
that already exist in the mesh edge collection; `mesh_edges` is the list
of `(sender, receiver)` index pairs of the two-way mesh connectivity. -/
def world_connection_step3 (world_pos : List (List ℚ)) (mesh_edges : List (ℕ × ℕ))
    (s r : ℕ) : ℚ :=
  if (s, r) ∈ mesh_edges then 0 else world_connection_step2 world_pos s r

/-- `torch.where(no_connection_mask, 0, world_connection_matrix)`: zero
every column `r` whose node type is OBSTACLE or HANDLE (the mask built
from `node_type[:, 0]` is stacked along dim 1 and transposed, so it
masks receivers). -/
def world_connection_step4 (world_pos : List (List ℚ)) (mesh_edges : List (ℕ × ℕ))
    (node_type : List ℕ) (s r : ℕ) : ℚ :=
  if node_type.getD r 0 = NodeType.OBSTACLE ∨ node_type.getD r 0 = NodeType.HANDLE then 0
  else world_connection_step3 world_pos mesh_edges s r

/-- `torch.nonzero(world_connection_matrix, as_tuple=True)`: the world
EdgeSet of `deform_model.Model._build_graph` contains the directed edge
`s → r` exactly when the final connection matrix entry is nonzero. -/
def world_edge (world_pos : List (List ℚ)) (mesh_edges : List (ℕ × ℕ))
    (node_type : List ℕ) (s r : ℕ) : Prop :=
  world_connection_step4 world_pos mesh_edges node_type s r ≠ 0

/-- The rows of `data` belonging to segment `k` of `segment_ids`, in
order. -/
def segmentRows (data : List (List ℚ)) (segment_ids : List ℕ) (k : ℕ) :
    List (List ℚ) :=
  (data.zip segment_ids).filterMap (fun di => if di.2 = k then some di.1 else none)

/-- `deform_model.Model.unsorted_segment_operation(data, segment_ids,
num_segments, operation)`: after the shape assertions (embedded as the
length guard on the 1-D `segment_ids` against the rows of `data`), the
operation name is dispatched over `sum`, `max`, `mean`, `min` via
`torch_scatter.scatter_*` with `dim_size=num_segments`, and any other
name raises `Exception('Invalid operation type!')`. -/
def unsorted_segment_operation (data : List (List ℚ)) (segment_ids : List ℕ)
    (num_segments : ℕ) (operation : String) : Except String (List (List ℚ)) :=
  if segment_ids.length ≠ data.length then
    Except.error "segment_ids.shape should be a prefix of data.shape"
  else if operation = "sum" then
    Except.ok ((List.range num_segments).map (fun k => colSum (segmentRows data segment_ids k)))
  else if operation = "max" then
    Except.ok ((List.range num_segments).map (fun k => colMax (segmentRows data segment_ids k)))
  else if operation = "mean" then
    Except.ok ((List.range num_segments).map (fun k => colMean (segmentRows data segment_ids k)))
  else if operation = "min" then
    Except.ok ((List.range num_segments).map (fun k => colMin (segmentRows data segment_ids k)))
  else Except.error "Invalid operation type!"

/-- The message-passing core modules imported by `cloth_model.py`. -/
inductive CoreModule where
  | encode_process_decode
  | encode_process_decode_graph_structure_watcher
  | encode_process_decode_hub
  | encode_process_decode_max_pooling
  | encode_process_decode_lstm
  deriving DecidableEq, Repr

/-- The fields of `deform_model.Model.__init__` relevant to core-model
selection: the stored `core_model_name` argument and the module bound to
`self.core_model` (from which `EncodeProcessDecode` is instantiated). -/
structure DeformModelConfig (α : Type) where
  core_model_name : α
  core_model : CoreModule

/-- `deform_model.Model.__init__(params, core_model_name, ...)`: the
`core_model_name` argument is stored, and `self.core_model` is assigned
the module `encode_process_decode` unconditionally. -/
def deform_model_init {α : Type} (core_model_name : α) : DeformModelConfig α :=
  { core_model_name := core_model_name
    core_model := CoreModule.encode_process_decode }

/-- `cloth_model.Model.select_core_model(core_model_name)`: a dictionary
lookup over the five recognized module names with
`.get(core_model_name, encode_process_decode)` — unknown names take the
default. -/
def select_core_model (core_model_name : String) : CoreModule :=
  if core_model_name = "encode_process_decode" then
    CoreModule.encode_process_decode
  else if core_model_name = "encode_process_decode_graph_structure_watcher" then
    CoreModule.encode_process_decode_graph_structure_watcher
  else if core_model_name = "encode_process_decode_hub" then
    CoreModule.encode_process_decode_hub
  else if core_model_name = "encode_process_decode_max_pooling" then
    CoreModule.encode_process_decode_max_pooling
  else if core_model_name = "encode_process_decode_lstm" then
    CoreModule.encode_process_decode_lstm
  else CoreModule.encode_process_decode

/-- Effect of `cloth_model.Model._build_graph(inputs, is_training)` on
normalizer state: both normalizer calls pass `is_training` as the
`accumulate` flag — `self._edge_normalizer(edge_features, is_training)`
and `self._node_normalizer(node_features, is_training)`.  The feature
matrices are taken as parameters (their values are computed upstream
from the inputs and do not influence whether state changes). -/
def cloth_build_graph_norms (edge_normalizer node_normalizer : Normalizer)
    (is_training : Bool) (edge_features node_features : List (List ℚ)) :
    Normalizer × Normalizer :=
  ((edge_normalizer.call edge_features is_training).2,
   (node_normalizer.call node_features is_training).2)

/-- Effect of `deform_model.Model._build_graph(inputs, is_training)` on
normalizer state, in source order.  The edge-normalizer calls are
written `self._world_edge_normalizer(world_edge_features, None,
is_training)` and `self._mesh_edge_normalizer(mesh_edge_features, None,
is_training)` — an extra positional argument that does not fit the
two-parameter `Normalizer.__call__(batched_data, accumulate)`; following
the call as the spec reads it, the value in the `accumulate` position is
`None` (falsy), i.e. no accumulation.  The node-normalizer call
`self._node_normalizer(masked_target_world_pos - masked_world_pos)`
passes no `accumulate` argument, so it takes the default `True`
regardless of `is_training`. -/
def deform_build_graph_norms (world_edge_normalizer mesh_edge_normalizer
    node_normalizer : Normalizer) (is_training : Bool)
    (world_edge_features mesh_edge_features node_delta : List (List ℚ)) :
    Normalizer × Normalizer × Normalizer :=
  ((world_edge_normalizer.call world_edge_features false).2,
   (mesh_edge_normalizer.call mesh_edge_features false).2,
   (node_normalizer.call node_delta true).2)

/-- Un-normalizing after normalizing against the same `(mean, std)`
pairs is the identity, provided no std entry is zero. -/
lemma zipWith_unnorm_norm (ps : List (ℚ × ℚ)) (row : List ℚ)
    (hps : ∀ p ∈ ps, p.2 ≠ 0) (hlen : row.length ≤ ps.length) :
    List.zipWith (fun v ms => v * ms.2 + ms.1)
      (List.zipWith (fun v ms => (v - ms.1) / ms.2) row ps) ps = row := by
  induction ps generalizing row with
  | nil =>
    cases row with
    | nil => simp
    | cons v vs => simp at hlen
  | cons p ps ih =>
    cases row with
    | nil => simp
    | cons v vs =>
      have hp : p.2 ≠ 0 := hps p (by simp)
      simp only [List.zipWith]
      rw [div_mul_cancel₀ _ hp, sub_add_cancel]
      rw [ih vs (fun q hq => hps q (List.mem_cons_of_mem p hq)) (by simpa using hlen)]

/-- Every entry of `std_with_epsilon` is nonzero once the epsilon floor
is positive. -/
lemma std_entry_ne_zero (n : Normalizer) (heps : 0 < n.std_epsilon)
    (a : ℚ) (ha : a ∈ n.std_with_epsilon) : a ≠ 0 := by
  simp only [Normalizer.std_with_epsilon, List.mem_map] at ha
  obtain ⟨qm, _, rfl⟩ := ha
  exact ne_of_gt (lt_of_lt_of_le heps (le_max_right _ _))

/-- C1: for every `Normalizer` state with a positive epsilon floor and
well-sized accumulators, and every batch whose rows have the
normalizer's dimensionality, `inverse (call x accumulate:=false)`
returns `x` exactly, and the `accumulate=false` call leaves the whole
normalizer state (all four accumulators, hence mean and std)
untouched. -/
theorem normalizer_round_trip (n : Normalizer) (x : List (List ℚ))
    (heps : 0 < n.std_epsilon)
    (hsum : n.acc_sum.length = n.size) (hsq : n.acc_sum_squared.length = n.size)
    (hx : ∀ row ∈ x, row.length = n.size) :
    n.inverse ((n.call x false).1) = x ∧ (n.call x false).2 = n := by
  have hcall1 : (n.call x false).1 =
      x.map (fun row => List.zipWith (fun v ms => (v - ms.1) / ms.2) row
        (n.mean.zip n.std_with_epsilon)) := by
    simp [Normalizer.call]
  have hmean : n.mean.length = n.size := by simp [Normalizer.mean, hsum]
  have hstd : n.std_with_epsilon.length = n.size := by
    simp [Normalizer.std_with_epsilon, List.length_zip, hmean, hsq]
  have hps : (n.mean.zip n.std_with_epsilon).length = n.size := by
    simp [List.length_zip, hmean, hstd]
  refine ⟨?_, by simp [Normalizer.call]⟩
  rw [hcall1]
  unfold Normalizer.inverse
  rw [List.map_map]
  clear hcall1
  revert hx
  induction x with
  | nil => intro _; simp
  | cons r rs ihx =>
    intro hx
    simp only [List.map_cons, Function.comp_apply, List.cons.injEq]
    refine ⟨?_, ihx (fun row hrow => hx row (List.mem_cons_of_mem r hrow))⟩
    exact zipWith_unnorm_norm _ r
      (fun p hp => std_entry_ne_zero n heps p.2 (List.of_mem_zip hp).2)
      (by rw [hps, hx r (by simp)])

/-- C1 witness: concrete round trip through a freshly constructed
3-dimensional normalizer on the batch `[[1,2,3],[4,5,6]]`. -/
theorem normalizer_round_trip_witness :
    (Normalizer.init 3).inverse (((Normalizer.init 3).call [[1, 2, 3], [4, 5, 6]] false).1)
        = [[1, 2, 3], [4, 5, 6]]
    ∧ ((Normalizer.init 3).call [[1, 2, 3], [4, 5, 6]] false).2 = Normalizer.init 3 :=
  normalizer_round_trip (Normalizer.init 3) [[1, 2, 3], [4, 5, 6]]
    (by norm_num [Normalizer.init]) (by simp [Normalizer.init])
    (by simp [Normalizer.init]) (by decide)

/-- C2: accumulating `[[1,2]]` then `[[3,4]]` in two
`accumulate=true` calls does NOT match accumulating the concatenation
`[[1,2],[3,4]]` in one call: the source increments `_acc_count` by the
tensor RANK of the batch (`len(batched_data.size().tolist())` = 2 for
every 2-D batch), a per-call constant, not by the number of rows, so the
sequential count is 4 against 2 for the single call and the means
disagree (`[1, 3/2]` against `[2, 3]`). -/
theorem accumulate_count_is_rank_not_rows :
    (((Normalizer.init 2).call [[1, 2]] true).2.call [[3, 4]] true).2.acc_count = 4
    ∧ ((Normalizer.init 2).call ([[1, 2]] ++ [[3, 4]]) true).2.acc_count = 2
    ∧ (((Normalizer.init 2).call [[1, 2]] true).2.call [[3, 4]] true).2.mean = [1, 3/2]
    ∧ ((Normalizer.init 2).call ([[1, 2]] ++ [[3, 4]]) true).2.mean = [2, 3]
    ∧ (((Normalizer.init 2).call [[1, 2]] true).2.call [[3, 4]] true).2.mean
        ≠ ((Normalizer.init 2).call ([[1, 2]] ++ [[3, 4]]) true).2.mean := by
  norm_num [Normalizer.call, Normalizer._accumulate, Normalizer.mean, Normalizer.init,
    List.replicate, colSum]

/-- C3: once the accumulation-event counter has reached the cap, a
further `accumulate=true` call returns the state completely unchanged
(the guard `_num_accumulations < _max_accumulations` skips
`_accumulate`); the embedded `call` is a total function, so no error is
raised. -/
theorem normalizer_cap_freezes (n : Normalizer) (x : List (List ℚ))
    (h : n.max_accumulations ≤ n.num_accumulations) :
    (n.call x true).2 = n := by
  simp only [Normalizer.call]
  rw [if_neg]
  intro hc
  exact absurd hc.2 (not_lt.mpr h)

/-- C3 witness: a 3-dimensional normalizer whose event counter sits at
the default cap `10^6` is unchanged by a further accumulating call. -/
theorem normalizer_cap_freezes_witness :
    (({ Normalizer.init 3 with num_accumulations := 10 ^ 6 } : Normalizer).call
        [[1, 2, 3]] true).2 = { Normalizer.init 3 with num_accumulations := 10 ^ 6 } :=
  normalizer_cap_freezes _ _ (by norm_num [Normalizer.init])

/-- C7 (refutation evidence): in the cloth model an evaluation-mode
graph build (`accumulate = is_training = false` on both calls) leaves
every normalizer state unchanged, but in the deforming-plate model an
evaluation-mode graph build accumulates into the node normalizer — its
call site passes no `accumulate` flag, so the default `True` applies
regardless of mode: its event counter moves from 0 to 1 (and its row
count and sums move accordingly). -/
theorem deform_eval_accumulates_node_normalizer :
    (∀ (e nn : Normalizer) (f g : List (List ℚ)),
        cloth_build_graph_norms e nn false f g = (e, nn))
    ∧ (deform_build_graph_norms (Normalizer.init 4) (Normalizer.init 8)
        (Normalizer.init 3) false [] [] [[0, 0, 0]]).2.2.num_accumulations = 1
    ∧ (Normalizer.init 3).num_accumulations = 0 := by
  refine ⟨fun e nn f g => ?_, ?_, by norm_num [Normalizer.init]⟩
  · simp [cloth_build_graph_norms, Normalizer.call]
  · norm_num [deform_build_graph_norms, Normalizer.call, Normalizer._accumulate,
      Normalizer.init]

/-- Entry `i` (with default) of an elementwise `zipWith` of two lists,
when `i` is in range of both. -/
lemma getD_zipWith_of_lt {α β γ : Type} (f : α → β → γ) (a : List α) (b : List β)
    (i : ℕ) (da : α) (db : β) (dc : γ) (ha : i < a.length) (hb : i < b.length) :
    (List.zipWith f a b).getD i dc = f (a.getD i da) (b.getD i db) := by
  induction a generalizing b i with
  | nil => simp at ha
  | cons x xs ih =>
    cases b with
    | nil => simp at hb
    | cons y ys =>
      cases i with
      | zero => simp
      | succ k =>
        simp only [List.zipWith, List.getD_cons_succ]
        exact ih ys k (by simpa using ha) (by simpa using hb)

/-- Entry `i` (with default) of a mapped list, when `i` is in range. -/
lemma getD_map_of_lt {α β : Type} (f : α → β) (l : List α) (i : ℕ) (da : α) (db : β)
    (h : i < l.length) :
    (l.map f).getD i db = f (l.getD i da) := by
  induction l generalizing i with
  | nil => simp at h
  | cons x xs ih =>
    cases i with
    | zero => simp
    | succ k =>
      simp only [List.map, List.getD_cons_succ]
      exact ih k (by simpa using h)

/-- C4: the cloth model's evaluation-mode update computes, entry by
entry, `next_position = 2 * world_pos + output_normalizer.inverse(raw) -
prev_world_pos`; in particular, with `world_pos = [[0,0,0],[1,0,0]]`,
`prev_world_pos = [[0,0,0],[9/10,0,0]]` and a raw output of zeros
(whose denormalized acceleration at the freshly constructed output
normalizer is zero), the result is `[[0,0,0],[11/10,0,0]]`. -/
theorem cloth_update_spec :
    (∀ (norm : Normalizer) (world prev raw : List (List ℚ)) (i j : ℕ),
        i < world.length → i < prev.length → i < (norm.inverse raw).length →
        j < (world.getD i []).length → j < ((norm.inverse raw).getD i []).length →
        j < (prev.getD i []).length →
        ((cloth_update norm world prev raw).getD i []).getD j 0
          = 2 * ((world.getD i []).getD j 0) + ((norm.inverse raw).getD i []).getD j 0
            - (prev.getD i []).getD j 0)
    ∧ cloth_update (Normalizer.init 3) [[0,0,0],[1,0,0]] [[0,0,0],[9/10,0,0]]
        [[0,0,0],[0,0,0]] = [[0,0,0],[11/10,0,0]] := by
  constructor
  · intro norm world prev raw i j hi1 hi2 hi3 hj1 hj2 hj3
    unfold cloth_update matSub matAdd matScale
    have hsc_len : (world.map (fun r => r.map (fun v => 2 * v))).length = world.length :=
      List.length_map _ _
    have hadd_len : (List.zipWith (List.zipWith (· + ·))
        (world.map (fun r => r.map (fun v => 2 * v))) (norm.inverse raw)).length
        = min world.length (norm.inverse raw).length := by
      rw [List.length_zipWith, hsc_len]
    rw [getD_zipWith_of_lt _ _ _ i [] [] [] (by omega) hi2]
    rw [getD_zipWith_of_lt _ _ _ i [] [] [] (by omega) hi3]
    rw [getD_map_of_lt _ _ i [] [] hi1]
    rw [getD_zipWith_of_lt _ _ _ j 0 0 0 ?_ ?_]
    · rw [getD_zipWith_of_lt _ _ _ j 0 0 0 ?_ hj2]
      · rw [getD_map_of_lt _ _ j 0 0 hj1]
      · rw [List.length_map]; exact hj1
    · rw [List.length_zipWith, List.length_map]; omega
    · exact hj3
  · norm_num [cloth_update, matSub, matAdd, matScale, Normalizer.inverse,
      Normalizer.std_with_epsilon, Normalizer.mean, Normalizer.init, List.replicate]

/-- C4 witness: the entry identity instantiated at the scenario's second
node, first coordinate. -/
theorem cloth_update_spec_witness :
    ((cloth_update (Normalizer.init 3) [[0,0,0],[1,0,0]] [[0,0,0],[9/10,0,0]]
        [[0,0,0],[0,0,0]]).getD 1 []).getD 0 0
      = 2 * ((([[0,0,0],[1,0,0]] : List (List ℚ)).getD 1 []).getD 0 0)
        + (((Normalizer.init 3).inverse [[0,0,0],[0,0,0]]).getD 1 []).getD 0 0
        - (([[0,0,0],[9/10,0,0]] : List (List ℚ)).getD 1 []).getD 0 0 :=
  cloth_update_spec.1 (Normalizer.init 3) [[0,0,0],[1,0,0]] [[0,0,0],[9/10,0,0]]
    [[0,0,0],[0,0,0]] 1 0 (by decide) (by decide)
    (by simp [Normalizer.inverse]) (by decide)
    (by simp [Normalizer.inverse, Normalizer.mean, Normalizer.std_with_epsilon,
      Normalizer.init]) (by decide)

/-- C5: the deforming-plate model's evaluation-mode update computes
`velocity = output_normalizer.inverse(raw)` and returns the triple
`(world_pos + velocity, world_pos, velocity)` (entry by entry for the
first component); in particular with `world_pos = [[2,0,0]]` and a raw
output whose denormalized velocity is `[[1/10,0,0]]`, the next position
is `[[21/10,0,0]]`. -/
theorem deform_update_spec :
    (∀ (norm : Normalizer) (world raw : List (List ℚ)) (i j : ℕ),
        i < world.length → i < (norm.inverse raw).length →
        j < (world.getD i []).length → j < ((norm.inverse raw).getD i []).length →
        ((deform_update norm world raw).1.getD i []).getD j 0
          = (world.getD i []).getD j 0 + ((norm.inverse raw).getD i []).getD j 0)
    ∧ (∀ (norm : Normalizer) (world raw : List (List ℚ)),
        (deform_update norm world raw).2.1 = world
        ∧ (deform_update norm world raw).2.2 = norm.inverse raw)
    ∧ deform_update (Normalizer.init 3) [[2,0,0]] [[10^7,0,0]]
        = ([[21/10,0,0]], [[2,0,0]], [[1/10,0,0]]) := by
  refine ⟨?_, fun norm world raw => ⟨rfl, rfl⟩, ?_⟩
  · intro norm world raw i j hi1 hi2 hj1 hj2
    unfold deform_update matAdd
    rw [getD_zipWith_of_lt _ _ _ i [] [] [] hi1 hi2]
    rw [getD_zipWith_of_lt _ _ _ j 0 0 0 hj1 hj2]
  · norm_num [deform_update, matAdd, Normalizer.inverse,
      Normalizer.std_with_epsilon, Normalizer.mean, Normalizer.init, List.replicate]

/-- C5 witness: the entry identity instantiated at the scenario's only
node, first coordinate. -/
theorem deform_update_spec_witness :
    (((deform_update (Normalizer.init 3) [[2,0,0]] [[10^7,0,0]]).1.getD 0 []).getD 0 0
      = (([[2,0,0]] : List (List ℚ)).getD 0 []).getD 0 0
        + (((Normalizer.init 3).inverse [[10^7,0,0]]).getD 0 []).getD 0 0) :=
  deform_update_spec.1 (Normalizer.init 3) [[2,0,0]] [[10^7,0,0]] 0 0 (by decide)
    (by simp [Normalizer.inverse]) (by decide)
    (by simp [Normalizer.inverse, Normalizer.mean, Normalizer.std_with_epsilon,
      Normalizer.init])

/-- C6: the deforming-plate world EdgeSet contains the directed edge
`s → r` iff the (squared) Euclidean distance of the two world positions
is under the (squared) radius `0.006`, `s ≠ r`, the pair `(s, r)` is not
already a mesh edge, and the receiver's node type is neither OBSTACLE
nor HANDLE. -/
theorem world_edge_iff (world_pos : List (List ℚ)) (mesh_edges : List (ℕ × ℕ))
    (node_type : List ℕ) (s r : ℕ) :
    world_edge world_pos mesh_edges node_type s r ↔
      sqDist (world_pos.getD s []) (world_pos.getD r []) < radius ^ 2
      ∧ s ≠ r ∧ (s, r) ∉ mesh_edges
      ∧ node_type.getD r 0 ≠ NodeType.OBSTACLE ∧ node_type.getD r 0 ≠ NodeType.HANDLE := by
  unfold world_edge world_connection_step4 world_connection_step3
    world_connection_step2 world_connection_step1
  split_ifs with h1 h2 h3 h4
  · simp_all
    tauto
  · simp_all
  · simp_all
  · simp_all
  · simp_all

/-- C8: calling the segment reducer with an operation name outside
`{sum, mean, max, min}` yields the fatal `Invalid operation type!`
error (or the earlier shape-assertion error), never a silent fallback;
for the four valid names on shape-consistent inputs the result is `ok`
with exactly `num_segments` rows. -/
theorem segment_operation_spec (data : List (List ℚ)) (segment_ids : List ℕ)
    (num_segments : ℕ) (operation : String) :
    (operation ∉ (["sum", "mean", "max", "min"] : List String) →
        ∃ msg, unsorted_segment_operation data segment_ids num_segments operation
          = Except.error msg)
    ∧ (segment_ids.length = data.length →
        operation ∈ (["sum", "mean", "max", "min"] : List String) →
        ∃ res, unsorted_segment_operation data segment_ids num_segments operation
          = Except.ok res ∧ res.length = num_segments) := by
  constructor
  · intro hop
    have h1 : operation ≠ "sum" := fun h => hop (by simp [h])
    have h2 : operation ≠ "mean" := fun h => hop (by simp [h])
    have h3 : operation ≠ "max" := fun h => hop (by simp [h])
    have h4 : operation ≠ "min" := fun h => hop (by simp [h])
    by_cases hlen : segment_ids.length = data.length
    · exact ⟨"Invalid operation type!",
        by simp [unsorted_segment_operation, hlen, h1, h2, h3, h4]⟩
    · exact ⟨"segment_ids.shape should be a prefix of data.shape",
        by simp [unsorted_segment_operation, hlen]⟩
  · intro hlen hop
    simp only [List.mem_cons, List.not_mem_nil, or_false] at hop
    rcases hop with h | h | h | h <;> subst h
    · exact ⟨(List.range num_segments).map (fun k => colSum (segmentRows data segment_ids k)),
        by simp [unsorted_segment_operation, hlen], by simp⟩
    · exact ⟨(List.range num_segments).map (fun k => colMean (segmentRows data segment_ids k)),
        by simp [unsorted_segment_operation, hlen], by simp⟩
    · exact ⟨(List.range num_segments).map (fun k => colMax (segmentRows data segment_ids k)),
        by simp [unsorted_segment_operation, hlen], by simp⟩
    · exact ⟨(List.range num_segments).map (fun k => colMin (segmentRows data segment_ids k)),
        by simp [unsorted_segment_operation, hlen], by simp⟩

/-- C8 witness: the unknown name `avg` errors, and `sum` on a one-row
input with one segment returns one row. -/
theorem segment_operation_spec_witness :
    (∃ msg, unsorted_segment_operation [[1]] [0] 1 "avg" = Except.error msg)
    ∧ (∃ res, unsorted_segment_operation [[1]] [0] 1 "sum" = Except.ok res
        ∧ res.length = 1) :=
  ⟨(segment_operation_spec [[1]] [0] 1 "avg").1 (by decide),
   (segment_operation_spec [[1]] [0] 1 "sum").2 (by decide) (by decide)⟩

/-- C9: the deforming-plate `Model.__init__` binds `self.core_model` to
`encode_process_decode` for every value of the `core_model_name`
argument; the argument is only stored. -/
theorem deform_core_model_is_fixed (α : Type) (name : α) :
    (deform_model_init name).core_model = CoreModule.encode_process_decode
    ∧ (deform_model_init name).core_model_name = name :=
  ⟨rfl, rfl⟩

/-- C10: the cloth `Model.select_core_model` returns the default
`encode_process_decode` module for every name outside the five
recognized ones (the embedded selector is total, so no error is
raised). -/
theorem select_core_model_default (name : String)
    (h : name ∉ (["encode_process_decode",
      "encode_process_decode_graph_structure_watcher", "encode_process_decode_hub",
      "encode_process_decode_max_pooling", "encode_process_decode_lstm"] : List String)) :
    select_core_model name = CoreModule.encode_process_decode := by
  simp only [List.mem_cons, List.not_mem_nil, or_false, not_or] at h
  obtain ⟨h1, h2, h3, h4, h5⟩ := h
  simp [select_core_model, h1, h2, h3, h4, h5]

/-- C10 witness: the unknown name `foo` selects the default module. -/
theorem select_core_model_default_witness :
    select_core_model "foo" = CoreModule.encode_process_decode :=
  select_core_model_default "foo" (by decide)
